import Mathlib

/-!
Verification of the PP-Food-Fair recipe costing backend.

The definitions below are a shallow embedding of the JavaScript source:

* `backend/src/models/Recipe.js` — the Recipe schema with the instance
  methods `calculateIngredientCost`, `calculateLaborCost` and
  `updateCalculatedCostsAndPrice` (the core cost calculator);
* `backend/src/controllers/recipeController.js` — `createRecipe` and
  `updateRecipe`;
* `backend/scripts/migrateData.js` — the bulk-import pathway that builds a
  recipe from spreadsheet data and runs the same instance method;
* `backend/src/controllers/laborController.js` — `calculateCostPerPie`,
  `createLabor` and `updateLabor`;
* `backend/src/models/Ingredient.js` — the ingredient catalog with its
  unique index on `name`;
* `backend/src/routes/recipeRoutes.js` — `createRecipeValidationRules`
  together with the `validateRequest` middleware.

JavaScript numbers are modelled as rationals (`ℚ`); `Math.round` is
half-up rounding `⌊x + 1/2⌋`; MongoDB ObjectIds are modelled as `Nat`;
`undefined` request fields are modelled with `Option`.  A thrown
`ErrorResponse` is modelled with `Except`.
-/

namespace PPFoodFair

/-! ### Rounding

`Math.round x` in JavaScript returns `⌊x + 1/2⌋` (half-up, ties toward
positive infinity).  `Recipe.js` uses `Math.round (x * 100) / 100` for the
final 2-decimal rounding and `Math.round (x * 10000) / 10000` for the
4-decimal rounding of the two sub-cost methods. -/

def jsRound (x : ℚ) : ℤ := ⌊x + 1 / 2⌋

def round2 (x : ℚ) : ℚ := (jsRound (x * 100) : ℚ) / 100

def round4 (x : ℚ) : ℚ := (jsRound (x * 10000) : ℚ) / 10000

/-! ### Data model -/

/-- `ErrorResponse` from `backend/src/utils/errorResponse.js`: a message
together with an HTTP status code. -/
structure ErrorResponse where
  message : String
  statusCode : Nat
deriving Repr, DecidableEq

/-- An ingredient catalog record (`backend/src/models/Ingredient.js`).
The schema field is `name` (`unique`, `trim`); `costPerUnit` has `min 0`.
Names are modelled as already trimmed. -/
structure Ingredient where
  name : String
  unitOfMeasure : String
  costPerUnit : ℚ
deriving Repr, DecidableEq

/-- A recipe ingredient line (`RecipeIngredientSchema` in `Recipe.js`):
an ObjectId reference, a quantity and a unit string. -/
structure RecipeIngredientLine where
  ingredient : Nat
  quantity : ℚ
  unitName : String
deriving Repr, DecidableEq

/-- A labor input line (`laborInputSchema` in `Recipe.js`). -/
structure LaborInput where
  workers : ℚ
  hoursPerWorker : ℚ
deriving Repr, DecidableEq

/-- The stored `calculatedCosts` subdocument of a recipe. -/
structure CalculatedCosts where
  totalIngredientCost : ℚ := 0
  totalLaborCost : ℚ := 0
  totalBatchCost : ℚ := 0
  costPerPie : ℚ := 0
deriving Repr, DecidableEq

/-- A recipe document (`RecipeSchema` in `Recipe.js`), restricted to the
fields the cost pipeline reads and writes. -/
structure Recipe where
  pieName : String
  variant : String
  batchSize : ℚ
  ingredients : List RecipeIngredientLine
  laborInputs : List LaborInput
  laborHourlyRate : ℚ
  markupPercentage : ℚ
  calculatedCosts : CalculatedCosts := {}
  sellingPrice : ℚ := 0
deriving Repr, DecidableEq

/-- The ingredient store: `populate` resolves an ObjectId to an ingredient
document, or to `null` when no document with that id exists. -/
def Lookup : Type := Nat → Option Ingredient

/-! ### Recipe cost calculator (`Recipe.js` instance methods) -/

/-- The message of the `ErrorResponse` thrown by
`RecipeSchema.methods.calculateIngredientCost` when a line's populated
`ingredient` is `null`: the source interpolates the optional chain on the
populated ingredient's id, or else the bracketed placeholder; for an
unresolved reference the populated value is `null`, so its id is
`undefined` and the template falls back to the placeholder. -/
def missingIngredientMessage : String :=
  "Invalid or missing data for ingredient ID: [provided ID is missing/invalid]"

def missingIngredientError : ErrorResponse :=
  { message := missingIngredientMessage, statusCode := 400 }

/-- The `for`-loop of `calculateIngredientCost`: accumulate
`quantity * costPerUnit` over the lines, throwing on the first line whose
reference does not resolve. -/
def ingredientCostLoop (lookup : Lookup) (acc : ℚ) :
    List RecipeIngredientLine → Except ErrorResponse ℚ
  | [] => .ok acc
  | item :: rest =>
    match lookup item.ingredient with
    | none => .error missingIngredientError
    | some ing =>
      ingredientCostLoop lookup (acc + item.quantity * ing.costPerUnit) rest

/-- `RecipeSchema.methods.calculateIngredientCost`: sum the line costs and
round the total to 4 decimal places.  (The `typeof costPerUnit !== "number"`
branch of the source cannot fire in this typed model, where every resolved
ingredient's `costPerUnit` is a number.) -/
def calculateIngredientCost (lookup : Lookup)
    (ingredients : List RecipeIngredientLine) : Except ErrorResponse ℚ :=
  (ingredientCostLoop lookup 0 ingredients).map round4

/-- The total labor hours loop of `calculateLaborCost`:
`Σ workers * hoursPerWorker`. -/
def totalLaborHours (laborInputs : List LaborInput) : ℚ :=
  laborInputs.foldl (fun acc input => acc + input.workers * input.hoursPerWorker) 0

/-- `RecipeSchema.methods.calculateLaborCost`: total labor hours times the
recipe-level hourly rate, rounded to 4 decimal places. -/
def calculateLaborCost (laborInputs : List LaborInput) (laborHourlyRate : ℚ) : ℚ :=
  round4 (totalLaborHours laborInputs * laborHourlyRate)

/-- `RecipeSchema.methods.updateCalculatedCostsAndPrice`: recompute the
four `calculatedCosts` fields and `sellingPrice` on the document, in the
order of the source: ingredient cost, labor cost, batch cost, the
batch-size guard for cost per pie, the markup multiplier, then the final
2-decimal rounding of all five stored figures. -/
def updateCalculatedCostsAndPrice (lookup : Lookup) (r : Recipe) :
    Except ErrorResponse Recipe :=
  match calculateIngredientCost lookup r.ingredients with
  | .error e => .error e
  | .ok totalIngredientCost =>
    let totalLaborCost := calculateLaborCost r.laborInputs r.laborHourlyRate
    let totalBatchCost := totalIngredientCost + totalLaborCost
    let costPerPie := if 0 < r.batchSize then totalBatchCost / r.batchSize else 0
    let sellingPrice := costPerPie * (1 + r.markupPercentage / 100)
    .ok { r with
      calculatedCosts := {
        totalIngredientCost := round2 totalIngredientCost
        totalLaborCost := round2 totalLaborCost
        totalBatchCost := round2 totalBatchCost
        costPerPie := round2 costPerPie }
      sellingPrice := round2 sellingPrice }

/-! ### Recipe controller (`recipeController.js`) -/

/-- The request body of `POST /api/v1/recipes` as destructured by
`createRecipe`.  `variant` is optional (`variant: variant || "Standard"`). -/
structure CreateRequest where
  pieName : String
  variant : Option String := none
  batchSize : ℚ
  ingredients : List RecipeIngredientLine
  laborInputs : List LaborInput
  laborHourlyRate : ℚ
  markupPercentage : ℚ
deriving Repr, DecidableEq

/-- JavaScript `v || dflt` on an optional string: an absent value and the
empty string are both falsy. -/
def jsStringOr (v : Option String) (dflt : String) : String :=
  match v with
  | none => dflt
  | some s => if s = "" then dflt else s

def missingFieldsError : ErrorResponse :=
  { message := "Missing required fields (pieName, batchSize, ingredients, laborInputs, laborHourlyRate, markupPercentage)",
    statusCode := 400 }

/-- `createRecipe`: after the controller's basic falsiness check, build the
document (defaulting `variant` to `Standard`), run
`updateCalculatedCostsAndPrice`, and save.  The returned recipe is the
persisted document; an error means nothing was persisted.  (The
`typeof x === "undefined"` checks on `laborHourlyRate` and
`markupPercentage` cannot fire in this typed model.) -/
def createRecipe (lookup : Lookup) (req : CreateRequest) :
    Except ErrorResponse Recipe :=
  if req.pieName = "" ∨ req.batchSize = 0 ∨ req.ingredients = [] ∨
      req.laborInputs = [] then
    .error missingFieldsError
  else
    updateCalculatedCostsAndPrice lookup
      { pieName := req.pieName
        variant := jsStringOr req.variant "Standard"
        batchSize := req.batchSize
        ingredients := req.ingredients
        laborInputs := req.laborInputs
        laborHourlyRate := req.laborHourlyRate
        markupPercentage := req.markupPercentage }

/-- The request body of `PUT /api/v1/recipes/:id`: every field optional. -/
structure UpdateRequest where
  pieName : Option String := none
  variant : Option String := none
  batchSize : Option ℚ := none
  ingredients : Option (List RecipeIngredientLine) := none
  laborInputs : Option (List LaborInput) := none
  laborHourlyRate : Option ℚ := none
  markupPercentage : Option ℚ := none
deriving Repr, DecidableEq

/-- `Object.assign(recipe, updateData)`: fields present in the request
body overwrite the stored recipe's fields. -/
def objectAssign (r : Recipe) (u : UpdateRequest) : Recipe :=
  { r with
    pieName := u.pieName.getD r.pieName
    variant := u.variant.getD r.variant
    batchSize := u.batchSize.getD r.batchSize
    ingredients := u.ingredients.getD r.ingredients
    laborInputs := u.laborInputs.getD r.laborInputs
    laborHourlyRate := u.laborHourlyRate.getD r.laborHourlyRate
    markupPercentage := u.markupPercentage.getD r.markupPercentage }

/-- `updateRecipe`: apply the request body over the stored document with
`Object.assign`, always recalculate via `updateCalculatedCostsAndPrice`,
then save.  The returned recipe is the persisted document. -/
def updateRecipe (lookup : Lookup) (stored : Recipe) (u : UpdateRequest) :
    Except ErrorResponse Recipe :=
  updateCalculatedCostsAndPrice lookup (objectAssign stored u)

/-! ### Bulk import (`backend/scripts/migrateData.js`, recipe upsert) -/

/-- The `currentPieData` record assembled by the migration script before
the recipe upsert (lines 586-618): the extracted batch size, ingredient
lines, labor inputs, hourly rate and markup percentage. -/
structure MigratedPieData where
  basePieName : String
  variant : String
  batchSize : ℚ
  ingredients : List RecipeIngredientLine
  laborInputs : List LaborInput
  laborHourlyRate : ℚ
  markupPercentage : ℚ
deriving Repr, DecidableEq

/-- The migration script's per-recipe step: `new Recipe(recipeData)`
followed by `await recipe.updateCalculatedCostsAndPrice()`; the resulting
document's fields are then upserted verbatim with `$set`. -/
def migrateRecipe (lookup : Lookup) (d : MigratedPieData) :
    Except ErrorResponse Recipe :=
  updateCalculatedCostsAndPrice lookup
    { pieName := d.basePieName
      variant := d.variant
      batchSize := d.batchSize
      ingredients := d.ingredients
      laborInputs := d.laborInputs
      laborHourlyRate := d.laborHourlyRate
      markupPercentage := d.markupPercentage }

/-- Entering the same extracted inputs through the manual create endpoint. -/
def manualRequestOf (d : MigratedPieData) : CreateRequest :=
  { pieName := d.basePieName
    variant := some d.variant
    batchSize := d.batchSize
    ingredients := d.ingredients
    laborInputs := d.laborInputs
    laborHourlyRate := d.laborHourlyRate
    markupPercentage := d.markupPercentage }

/-! ### Labor controller (`laborController.js`) -/

/-- A `Labor` document (`backend/src/models/Labor.js`). -/
structure Labor where
  pieName : String
  costPerHour : ℚ
  minutesPerPie : ℚ
  laborCostPerPie : ℚ
deriving Repr, DecidableEq

/-- The helper at the top of `laborController.js`: negative inputs are
clamped to a zero cost, otherwise `costPerHour * (minutesPerPie / 60)`. -/
def calculateCostPerPie (costPerHour minutesPerPie : ℚ) : ℚ :=
  if costPerHour < 0 ∨ minutesPerPie < 0 then 0
  else costPerHour * (minutesPerPie / 60)

/-- The body of `POST /api/v1/labor`. -/
structure LaborCreateRequest where
  pieName : String
  costPerHour : ℚ
  minutesPerPie : ℚ
deriving Repr, DecidableEq

/-- `createLabor`: compute `laborCostPerPie` before creating the document. -/
def createLabor (req : LaborCreateRequest) : Labor :=
  { pieName := req.pieName
    costPerHour := req.costPerHour
    minutesPerPie := req.minutesPerPie
    laborCostPerPie := calculateCostPerPie req.costPerHour req.minutesPerPie }

/-- The body of `PUT /api/v1/labor/:id`: every field optional; a client
may also send `laborCostPerPie` directly (it is part of the spread
`{ ...req.body }`). -/
structure LaborUpdateRequest where
  pieName : Option String := none
  costPerHour : Option ℚ := none
  minutesPerPie : Option ℚ := none
  laborCostPerPie : Option ℚ := none
deriving Repr, DecidableEq

/-- `updateLabor`: recompute `laborCostPerPie` whenever `costPerHour` or
`minutesPerPie` is supplied, using the stored value for whichever of the
two is not supplied (`updatedData.x ?? labor.x`); otherwise the update
leaves `laborCostPerPie` as sent (or as stored). -/
def updateLabor (stored : Labor) (u : LaborUpdateRequest) : Labor :=
  let costPerHour := u.costPerHour.getD stored.costPerHour
  let minutesPerPie := u.minutesPerPie.getD stored.minutesPerPie
  let laborCostPerPie :=
    if u.costPerHour.isSome ∨ u.minutesPerPie.isSome then
      calculateCostPerPie costPerHour minutesPerPie
    else u.laborCostPerPie.getD stored.laborCostPerPie
  { pieName := u.pieName.getD stored.pieName
    costPerHour := costPerHour
    minutesPerPie := minutesPerPie
    laborCostPerPie := laborCostPerPie }

/-! ### Ingredient catalog creation (`Ingredient.js` + `ingredientController.js`)

`createIngredient` runs `Ingredient.create(req.body)` with no
case-normalization; the only uniqueness enforcement is the schema's
`unique: true` index on `name`, which MongoDB builds with the default
binary collation — two names are duplicates only when they are exactly
equal strings (after the schema's `trim`). -/

def duplicateNameError : ErrorResponse :=
  { message := "E11000 duplicate key error", statusCode := 400 }

/-- Does the catalog already hold a record with exactly this name? -/
def nameTaken (catalog : List Ingredient) (name : String) : Bool :=
  catalog.any (fun ing => ing.name = name)

/-- `POST /api/v1/ingredients` against a catalog state: the unique index
rejects an exact duplicate name, otherwise the record is inserted. -/
def createIngredient (catalog : List Ingredient) (ing : Ingredient) :
    Except ErrorResponse (List Ingredient) :=
  if nameTaken catalog ing.name then .error duplicateNameError
  else .ok (catalog ++ [ing])

/-! ### Recipe create validation (`recipeRoutes.js`) -/

/-- `isInt` on a JavaScript number: an integral value. -/
def isJsInt (q : ℚ) : Prop := q.den = 1

instance (q : ℚ) : Decidable (isJsInt q) := by
  unfold isJsInt
  infer_instance

/-- `createRecipeValidationRules` of `recipeRoutes.js`, applied to a typed
request body; each failing rule contributes its `path: msg` string exactly
as `validateRequest` formats it (a per-element rule fails when some
element violates it). -/
def createValidationErrors (req : CreateRequest) : List String :=
  (if req.pieName = "" then
    ["pieName: Pie name is required and must be a string"] else []) ++
  (if ¬ (isJsInt req.batchSize ∧ 0 < req.batchSize) then
    ["batchSize: Batch size must be a positive integer"] else []) ++
  (if req.ingredients.length < 1 then
    ["ingredients: Ingredients must be a non-empty array"] else []) ++
  (if ∃ line ∈ req.ingredients, line.quantity ≤ 0 then
    ["ingredients.*.quantity: Each ingredient quantity must be a positive number"] else []) ++
  (if ∃ line ∈ req.ingredients, line.unitName = "" then
    ["ingredients.*.unit: Each ingredient unit is required and must be a string"] else []) ++
  (if req.laborInputs.length < 1 then
    ["laborInputs: Labor inputs must be a non-empty array"] else []) ++
  (if ∃ input ∈ req.laborInputs, ¬ (isJsInt input.workers ∧ 0 < input.workers) then
    ["laborInputs.*.workers: Each labor input must specify workers as a positive integer"] else []) ++
  (if ∃ input ∈ req.laborInputs, input.hoursPerWorker < 0 then
    ["laborInputs.*.hoursPerWorker: Each labor input must specify hours per worker as a non-negative number"] else []) ++
  (if req.laborHourlyRate < 0 then
    ["laborHourlyRate: Labor hourly rate must be a non-negative number"] else []) ++
  (if req.markupPercentage < 0 then
    ["markupPercentage: Markup percentage must be a non-negative number"] else [])

/-- The `validateRequest` middleware's 400 response for a nonempty error
list. -/
def validationError (errs : List String) : ErrorResponse :=
  { message := "Validation Error: " ++ String.intercalate "; " errs
    statusCode := 400 }

/-- The `POST /` route pipeline: `createRecipeValidationRules`, then
`validateRequest` (which stops the request on any validation error before
the controller — and hence the calculator — runs), then `createRecipe`. -/
def recipeCreateEndpoint (lookup : Lookup) (req : CreateRequest) :
    Except ErrorResponse Recipe :=
  match createValidationErrors req with
  | [] => createRecipe lookup req
  | errs => .error (validationError errs)

/-! ### Concrete scenario (test fixture of the recipe test suite)

`Test Flour` at R1.50/kg; one recipe line of 2 kg; one labor input of
1 worker for 2.5 hours at R25/h; batch size 10; markup 10%. -/

def testFlour : Ingredient :=
  { name := "Test Flour", unitOfMeasure := "kg", costPerUnit := 3 / 2 }

/-- The ingredient store holding only `Test Flour` under id 0. -/
def scenarioLookup : Lookup :=
  fun id => if id = 0 then some testFlour else none

def scenarioRequest : CreateRequest :=
  { pieName := "Test Recipe Pie"
    batchSize := 10
    ingredients := [{ ingredient := 0, quantity := 2, unitName := "kg" }]
    laborInputs := [{ workers := 1, hoursPerWorker := 5 / 2 }]
    laborHourlyRate := 25
    markupPercentage := 10 }

/-- The scenario outputs at a given markup percentage (projection helper
for concrete evaluations). -/
def scenarioSellingPrice (markup : ℚ) : ℚ :=
  match createRecipe scenarioLookup { scenarioRequest with markupPercentage := markup } with
  | .ok r => r.sellingPrice
  | .error _ => 0

/-! ### Basic lemmas about the embedding -/

theorem jsRound_mono {x y : ℚ} (h : x ≤ y) : jsRound x ≤ jsRound y :=
  Int.floor_le_floor (by linarith)

theorem round2_mono {x y : ℚ} (h : x ≤ y) : round2 x ≤ round2 y := by
  have hr : jsRound (x * 100) ≤ jsRound (y * 100) :=
    jsRound_mono (by linarith)
  have hq : (jsRound (x * 100) : ℚ) ≤ (jsRound (y * 100) : ℚ) := by
    exact_mod_cast hr
  unfold round2
  linarith

theorem round2_zero : round2 0 = 0 := by
  unfold round2 jsRound
  norm_num

theorem round2_nonneg {x : ℚ} (h : 0 ≤ x) : 0 ≤ round2 x := by
  have := round2_mono h
  rwa [round2_zero] at this

/-- Master evaluation lemma: when ingredient resolution succeeds, the
calculator succeeds and produces exactly the rounded breakdown. -/
theorem updateCalc_ok (lookup : Lookup) (r : Recipe) (tic : ℚ)
    (h : calculateIngredientCost lookup r.ingredients = .ok tic) :
    updateCalculatedCostsAndPrice lookup r = .ok { r with
      calculatedCosts := {
        totalIngredientCost := round2 tic
        totalLaborCost := round2 (calculateLaborCost r.laborInputs r.laborHourlyRate)
        totalBatchCost := round2 (tic + calculateLaborCost r.laborInputs r.laborHourlyRate)
        costPerPie := round2 (if 0 < r.batchSize then
          (tic + calculateLaborCost r.laborInputs r.laborHourlyRate) / r.batchSize else 0) }
      sellingPrice := round2 ((if 0 < r.batchSize then
          (tic + calculateLaborCost r.laborInputs r.laborHourlyRate) / r.batchSize else 0) *
        (1 + r.markupPercentage / 100)) } := by
  rw [updateCalculatedCostsAndPrice, h]

/-- When ingredient resolution fails, the calculator propagates the error. -/
theorem updateCalc_error (lookup : Lookup) (r : Recipe) (e : ErrorResponse)
    (h : calculateIngredientCost lookup r.ingredients = .error e) :
    updateCalculatedCostsAndPrice lookup r = .error e := by
  rw [updateCalculatedCostsAndPrice, h]

/-! ### Evaluation of the baseline scenario -/

theorem scenario_tic :
    calculateIngredientCost scenarioLookup scenarioRequest.ingredients = .ok 3 := by
  simp [calculateIngredientCost, ingredientCostLoop, scenarioLookup, scenarioRequest,
    testFlour, Except.map]
  norm_num [round4, jsRound]

theorem scenario_tlc :
    calculateLaborCost scenarioRequest.laborInputs 25 = 125 / 2 := by
  norm_num [calculateLaborCost, totalLaborHours, scenarioRequest, round4, jsRound]

/-- The recipe document persisted for the baseline scenario: the values the
recipe test suite asserts (3.00, 62.50, 65.50, 6.55, 7.21). -/
def scenarioRecipe : Recipe :=
  { pieName := "Test Recipe Pie"
    variant := "Standard"
    batchSize := 10
    ingredients := [{ ingredient := 0, quantity := 2, unitName := "kg" }]
    laborInputs := [{ workers := 1, hoursPerWorker := 5 / 2 }]
    laborHourlyRate := 25
    markupPercentage := 10
    calculatedCosts := {
      totalIngredientCost := 3
      totalLaborCost := 125 / 2
      totalBatchCost := 131 / 2
      costPerPie := 131 / 20 }
    sellingPrice := 721 / 100 }

theorem scenario_create :
    createRecipe scenarioLookup scenarioRequest = .ok scenarioRecipe := by
  rw [createRecipe]
  rw [if_neg (by simp [scenarioRequest])]
  rw [updateCalc_ok _ _ 3 (by exact scenario_tic)]
  simp only [scenarioRequest, scenarioRecipe, jsStringOr]
  norm_num [scenario_tlc, round2, jsRound, calculateLaborCost, totalLaborHours, round4]

/-- C1: on the calculation request with one ingredient line of 2 units at
cost 1.50, one labor input of 1 worker for 2.5 hours at rate 25, batch
size 10 and markup 10, the calculator returns totalIngredientCost 3.00,
totalLaborCost 62.50, totalBatchCost 65.50, costPerPie 6.55 and
sellingPrice 7.21; the raw selling price 7.205 rounds up to 7.21 under the
half-up rounding used for the 2-decimal finalization. -/
theorem C1_scenario_calculation :
    createRecipe scenarioLookup scenarioRequest = .ok scenarioRecipe ∧
    scenarioRecipe.calculatedCosts.totalIngredientCost = 3 ∧
    scenarioRecipe.calculatedCosts.totalLaborCost = 625 / 10 ∧
    scenarioRecipe.calculatedCosts.totalBatchCost = 655 / 10 ∧
    scenarioRecipe.calculatedCosts.costPerPie = 655 / 100 ∧
    scenarioRecipe.sellingPrice = 721 / 100 ∧
    (655 : ℚ) / 100 * (1 + 10 / 100) = 7205 / 1000 ∧
    round2 (7205 / 1000) = 721 / 100 := by
  refine ⟨scenario_create, ?_, ?_, ?_, ?_, ?_, ?_, ?_⟩ <;>
    norm_num [scenarioRecipe, round2, jsRound]

/-- The calculated outputs of `updateCalculatedCostsAndPrice` depend only
on the five calculation inputs (batch size, ingredient lines, labor
inputs, hourly rate, markup), not on any other document field. -/
theorem calc_depends_only_on_inputs (lookup : Lookup) (r₁ r₂ s₁ s₂ : Recipe)
    (hing : r₁.ingredients = r₂.ingredients)
    (hlab : r₁.laborInputs = r₂.laborInputs)
    (hrate : r₁.laborHourlyRate = r₂.laborHourlyRate)
    (hbs : r₁.batchSize = r₂.batchSize)
    (hm : r₁.markupPercentage = r₂.markupPercentage)
    (h₁ : updateCalculatedCostsAndPrice lookup r₁ = .ok s₁)
    (h₂ : updateCalculatedCostsAndPrice lookup r₂ = .ok s₂) :
    s₁.calculatedCosts = s₂.calculatedCosts ∧ s₁.sellingPrice = s₂.sellingPrice := by
  cases h : calculateIngredientCost lookup r₂.ingredients with
  | error e =>
    rw [updateCalc_error lookup r₂ e h] at h₂
    exact Except.noConfusion h₂
  | ok tic =>
    have h' : calculateIngredientCost lookup r₁.ingredients = .ok tic := by
      rw [hing]; exact h
    rw [updateCalc_ok lookup r₁ tic h'] at h₁
    rw [updateCalc_ok lookup r₂ tic h] at h₂
    injection h₁ with h₁'
    injection h₂ with h₂'
    subst h₁'
    subst h₂'
    constructor
    · simp [hing, hlab, hrate, hbs, hm]
    · simp [hing, hlab, hrate, hbs, hm]

/-- C2: for every recipe extracted by the bulk import, the import pathway
produces exactly the same five calculated output values as entering the
same batch size, ingredient lines, labor inputs, labor hourly rate and
markup percentage through manual create: both run the identical
`updateCalculatedCostsAndPrice` pipeline, with no separate batch-import
formula. -/
theorem C2_import_matches_manual (lookup : Lookup) (d : MigratedPieData)
    (rManual rImport : Recipe)
    (hManual : createRecipe lookup (manualRequestOf d) = .ok rManual)
    (hImport : migrateRecipe lookup d = .ok rImport) :
    rImport.calculatedCosts = rManual.calculatedCosts ∧
    rImport.sellingPrice = rManual.sellingPrice := by
  rw [createRecipe] at hManual
  split at hManual
  · exact Except.noConfusion hManual
  · rw [migrateRecipe] at hImport
    refine calc_depends_only_on_inputs lookup _ _ rImport rManual
      ?_ ?_ ?_ ?_ ?_ hImport hManual <;> rfl

/-- The baseline scenario's inputs as the bulk import would extract them. -/
def scenarioMigrated : MigratedPieData :=
  { basePieName := "Test Recipe Pie"
    variant := "Standard"
    batchSize := 10
    ingredients := [{ ingredient := 0, quantity := 2, unitName := "kg" }]
    laborInputs := [{ workers := 1, hoursPerWorker := 5 / 2 }]
    laborHourlyRate := 25
    markupPercentage := 10 }

theorem scenario_migrate :
    migrateRecipe scenarioLookup scenarioMigrated = .ok scenarioRecipe := by
  rw [migrateRecipe]
  rw [updateCalc_ok _ _ 3 (by exact scenario_tic)]
  simp only [scenarioMigrated, scenarioRecipe]
  norm_num [round2, jsRound, calculateLaborCost, totalLaborHours, round4]

theorem scenario_manual :
    createRecipe scenarioLookup (manualRequestOf scenarioMigrated) = .ok scenarioRecipe := by
  rw [createRecipe]
  rw [if_neg (by simp [manualRequestOf, scenarioMigrated])]
  rw [updateCalc_ok _ _ 3 (by exact scenario_tic)]
  simp only [manualRequestOf, scenarioMigrated, scenarioRecipe, jsStringOr]
  norm_num [round2, jsRound, calculateLaborCost, totalLaborHours, round4]

/-- Witness for C2: the import pathway and manual create agree on the
baseline scenario's inputs, both producing the scenario's five values. -/
theorem C2_import_matches_manual_witness :
    scenarioRecipe.calculatedCosts = scenarioRecipe.calculatedCosts ∧
    scenarioRecipe.sellingPrice = scenarioRecipe.sellingPrice :=
  C2_import_matches_manual scenarioLookup scenarioMigrated scenarioRecipe scenarioRecipe
    scenario_manual scenario_migrate

/-- If any line's reference is unresolved, the ingredient cost loop aborts
with the fixed 400 `ErrorResponse` (and no partial sum is returned). -/
theorem ingredientCostLoop_unresolved (lookup : Lookup) :
    ∀ (lines : List RecipeIngredientLine) (acc : ℚ),
      (∃ line ∈ lines, lookup line.ingredient = none) →
      ingredientCostLoop lookup acc lines = .error missingIngredientError := by
  intro lines
  induction lines with
  | nil =>
    intro acc h
    simp at h
  | cons head tail ih =>
    intro acc h
    rw [ingredientCostLoop]
    cases hl : lookup head.ingredient with
    | none => rfl
    | some ing =>
      apply ih
      rcases h with ⟨line, hmem, hnone⟩
      rcases List.mem_cons.mp hmem with heq | htail
      · rw [heq] at hnone
        rw [hnone] at hl
        exact Option.noConfusion hl
      · exact ⟨line, htail, hnone⟩

/-- A create request whose single ingredient line references the
nonexistent ingredient id 42. -/
def badRefRequest : CreateRequest :=
  { scenarioRequest with
    pieName := "Bad Ingredient Pie"
    ingredients := [{ ingredient := 42, quantity := 1, unitName := "kg" }] }

set_option maxRecDepth 10000 in
/-- C3 counterexample: a create with an unresolvable ingredient reference
(id 42) does fail with a 400 error and nothing is persisted, but the error
does not identify the offending reference: `populate` leaves the line's
`ingredient` as `null`, so the thrown message falls back to the fixed
placeholder text, which does not contain the offending id `42`. -/
theorem C3_counterexample :
    createRecipe scenarioLookup badRefRequest = .error missingIngredientError ∧
    missingIngredientError.statusCode = 400 ∧
    ¬ ("42".data <:+: missingIngredientMessage.data) := by
  refine ⟨?_, rfl, by decide⟩
  have hfail : calculateIngredientCost scenarioLookup badRefRequest.ingredients =
      .error missingIngredientError := by
    rw [calculateIngredientCost]
    rw [ingredientCostLoop_unresolved scenarioLookup badRefRequest.ingredients 0
      ⟨{ ingredient := 42, quantity := 1, unitName := "kg" },
        by simp [badRefRequest, scenarioRequest], rfl⟩]
    rfl
  rw [createRecipe]
  rw [if_neg (by simp [badRefRequest, scenarioRequest])]
  exact updateCalc_error scenarioLookup _ _ hfail

/-- C3 (amended): a calculation request containing an unresolvable
ingredient reference fails with the client-correctable 400
`ErrorResponse`, no partial cost breakdown is returned and no calculated
fields are persisted (the create returns an error instead of a saved
recipe); the error message is the fixed invalid-ingredient placeholder and
does not name the specific offending reference. -/
theorem C3_unresolved_fails_400 (lookup : Lookup) (req : CreateRequest)
    (hpie : req.pieName ≠ "") (hbs : req.batchSize ≠ 0)
    (hlab : req.laborInputs ≠ [])
    (hbad : ∃ line ∈ req.ingredients, lookup line.ingredient = none) :
    createRecipe lookup req = .error missingIngredientError ∧
    missingIngredientError.statusCode = 400 := by
  have hne : req.ingredients ≠ [] := by
    rcases hbad with ⟨line, hmem, _⟩
    intro hnil
    rw [hnil] at hmem
    exact List.not_mem_nil line hmem
  refine ⟨?_, rfl⟩
  have hfail : calculateIngredientCost lookup req.ingredients =
      .error missingIngredientError := by
    rw [calculateIngredientCost]
    rw [ingredientCostLoop_unresolved lookup req.ingredients 0 hbad]
    rfl
  rw [createRecipe]
  rw [if_neg (by
    push_neg
    exact ⟨hpie, hbs, hne, hlab⟩)]
  exact updateCalc_error lookup _ _ hfail

/-- Witness for C3 (amended): the bad-reference request concretely fails
with the fixed 400 error. -/
theorem C3_unresolved_fails_400_witness :
    createRecipe scenarioLookup badRefRequest = .error missingIngredientError ∧
    missingIngredientError.statusCode = 400 :=
  C3_unresolved_fails_400 scenarioLookup badRefRequest
    (by decide) (by decide) (by decide)
    ⟨{ ingredient := 42, quantity := 1, unitName := "kg" },
      List.mem_singleton.mpr rfl, rfl⟩

/-- A document produced by the calculator is a fixed point: re-deriving
all five output fields from its current inputs reproduces it exactly. -/
theorem updateCalc_fixed_point (lookup : Lookup) (r r' : Recipe)
    (h : updateCalculatedCostsAndPrice lookup r = .ok r') :
    updateCalculatedCostsAndPrice lookup r' = .ok r' := by
  cases hc : calculateIngredientCost lookup r.ingredients with
  | error e =>
    rw [updateCalc_error lookup r e hc] at h
    exact Except.noConfusion h
  | ok tic =>
    rw [updateCalc_ok lookup r tic hc] at h
    injection h with h'
    subst h'
    rw [updateCalc_ok lookup _ tic (by exact hc)]

/-- The calculator reads none of the stored output fields: overwriting
`calculatedCosts` and `sellingPrice` before calculating changes nothing. -/
theorem updateCalc_ignores_outputs (lookup : Lookup) (r : Recipe)
    (c : CalculatedCosts) (s : ℚ) :
    updateCalculatedCostsAndPrice lookup
        { r with calculatedCosts := c, sellingPrice := s } =
      updateCalculatedCostsAndPrice lookup r := by
  cases hc : calculateIngredientCost lookup r.ingredients with
  | error e =>
    rw [updateCalc_error lookup r e hc, updateCalc_error lookup _ e (by exact hc)]
  | ok tic =>
    rw [updateCalc_ok lookup r tic hc, updateCalc_ok lookup _ tic (by exact hc)]

/-- `updateRecipe` gives the same result whatever calculated fields were
stored before the update. -/
theorem updateRecipe_ignores_stored_outputs (lookup : Lookup) (stored : Recipe)
    (u : UpdateRequest) (c : CalculatedCosts) (s : ℚ) :
    updateRecipe lookup { stored with calculatedCosts := c, sellingPrice := s } u =
      updateRecipe lookup stored u := by
  rw [updateRecipe, updateRecipe]
  have hmerge : objectAssign { stored with calculatedCosts := c, sellingPrice := s } u =
      { objectAssign stored u with calculatedCosts := c, sellingPrice := s } := rfl
  rw [hmerge]
  exact updateCalc_ignores_outputs lookup (objectAssign stored u) c s

/-- C4: every create and every update re-derives all five calculated
output fields synchronously from the complete current input set before
persisting: a persisted recipe is a fixed point of the calculator (its
stored `calculatedCosts` and `sellingPrice` coincide with a fresh full
recalculation from its current inputs), and the update result is
independent of whatever calculated fields were stored before. -/
theorem C4_full_recalculation (lookup : Lookup) (req : CreateRequest)
    (stored : Recipe) (u : UpdateRequest) (rc ru : Recipe)
    (c : CalculatedCosts) (s : ℚ)
    (hc : createRecipe lookup req = .ok rc)
    (hu : updateRecipe lookup stored u = .ok ru) :
    updateCalculatedCostsAndPrice lookup rc = .ok rc ∧
    updateCalculatedCostsAndPrice lookup ru = .ok ru ∧
    updateRecipe lookup { stored with calculatedCosts := c, sellingPrice := s } u =
      updateRecipe lookup stored u := by
  refine ⟨?_, ?_, updateRecipe_ignores_stored_outputs lookup stored u c s⟩
  · rw [createRecipe] at hc
    split at hc
    · exact Except.noConfusion hc
    · exact updateCalc_fixed_point lookup _ rc hc
  · rw [updateRecipe] at hu
    exact updateCalc_fixed_point lookup _ ru hu

/-- The markup-only update of the recipe test suite. -/
def markup30Update : UpdateRequest := { markupPercentage := some 30 }

/-- The persisted document after updating the scenario recipe's markup to
30: costs unchanged, sellingPrice 8.52 (6.55 × 1.30 = 8.515 → 8.52). -/
def scenarioRecipe30 : Recipe :=
  { scenarioRecipe with markupPercentage := 30, sellingPrice := 852 / 100 }

theorem scenario_update30 :
    updateRecipe scenarioLookup scenarioRecipe markup30Update = .ok scenarioRecipe30 := by
  rw [updateRecipe]
  rw [updateCalc_ok _ _ 3 (by exact scenario_tic)]
  simp only [objectAssign, markup30Update, scenarioRecipe, scenarioRecipe30, Option.getD]
  norm_num [round2, jsRound, calculateLaborCost, totalLaborHours, round4]

/-- A stale calculated-costs block used to show stored outputs are ignored. -/
def staleCosts : CalculatedCosts :=
  { totalIngredientCost := 999
    totalLaborCost := 999
    totalBatchCost := 999
    costPerPie := 999 }

/-- Witness for C4: the scenario's persisted create and markup-update
results are fixed points of the calculator, and stale stored outputs (999
everywhere) do not influence the update. -/
theorem C4_full_recalculation_witness :
    updateCalculatedCostsAndPrice scenarioLookup scenarioRecipe = .ok scenarioRecipe ∧
    updateCalculatedCostsAndPrice scenarioLookup scenarioRecipe30 = .ok scenarioRecipe30 ∧
    updateRecipe scenarioLookup
        { scenarioRecipe with calculatedCosts := staleCosts, sellingPrice := 999 }
        markup30Update =
      updateRecipe scenarioLookup scenarioRecipe markup30Update :=
  C4_full_recalculation scenarioLookup scenarioRequest scenarioRecipe markup30Update
    scenarioRecipe scenarioRecipe30 staleCosts 999
    scenario_create scenario_update30

/-- C5: on every LaborRecord update, `laborCostPerPie` is recomputed as
`costPerHour × (minutesPerPie / 60)` whenever `costPerHour` or
`minutesPerPie` is supplied, using the stored value for whichever of the
two is not supplied; a negative `costPerHour` or `minutesPerPie` is
clamped to a zero cost, and non-negative inputs give the product formula;
create computes the same helper. -/
theorem C5_labor_cost_recompute (stored : Labor) (u : LaborUpdateRequest)
    (h : u.costPerHour.isSome ∨ u.minutesPerPie.isSome) :
    (updateLabor stored u).laborCostPerPie =
      calculateCostPerPie (u.costPerHour.getD stored.costPerHour)
        (u.minutesPerPie.getD stored.minutesPerPie) ∧
    (∀ c m : ℚ, c < 0 ∨ m < 0 → calculateCostPerPie c m = 0) ∧
    (∀ c m : ℚ, 0 ≤ c → 0 ≤ m → calculateCostPerPie c m = c * (m / 60)) ∧
    (∀ req : LaborCreateRequest, (createLabor req).laborCostPerPie =
      calculateCostPerPie req.costPerHour req.minutesPerPie) := by
  refine ⟨?_, ?_, ?_, fun req => rfl⟩
  · simp only [updateLabor]
    rw [if_pos h]
  · intro c m hcm
    rw [calculateCostPerPie, if_pos hcm]
  · intro c m hc hm
    rw [calculateCostPerPie, if_neg (by push_neg; exact ⟨hc, hm⟩)]

/-- The labor record of the recipe test fixture. -/
def storedLabor : Labor :=
  { pieName := "Test Pie Base"
    costPerHour := 25
    minutesPerPie := 15
    laborCostPerPie := 25 * (15 / 60) }

/-- An update touching only `minutesPerPie`. -/
def minutes30Update : LaborUpdateRequest := { minutesPerPie := some 30 }

/-- Witness for C5: updating only `minutesPerPie` to 30 recomputes the
cost from the stored hourly rate. -/
theorem C5_labor_cost_recompute_witness :
    (updateLabor storedLabor minutes30Update).laborCostPerPie =
      calculateCostPerPie (minutes30Update.costPerHour.getD storedLabor.costPerHour)
        (minutes30Update.minutesPerPie.getD storedLabor.minutesPerPie) ∧
    (∀ c m : ℚ, c < 0 ∨ m < 0 → calculateCostPerPie c m = 0) ∧
    (∀ c m : ℚ, 0 ≤ c → 0 ≤ m → calculateCostPerPie c m = c * (m / 60)) ∧
    (∀ req : LaborCreateRequest, (createLabor req).laborCostPerPie =
      calculateCostPerPie req.costPerHour req.minutesPerPie) :=
  C5_labor_cost_recompute storedLabor minutes30Update (Or.inr rfl)

/-! ### Markup monotonicity -/

/-- The scenario recipe document before calculation. -/
def scenarioBase : Recipe :=
  { pieName := "Test Recipe Pie"
    variant := "Standard"
    batchSize := 10
    ingredients := [{ ingredient := 0, quantity := 2, unitName := "kg" }]
    laborInputs := [{ workers := 1, hoursPerWorker := 5 / 2 }]
    laborHourlyRate := 25
    markupPercentage := 10 }

theorem scenario_labor_nonneg :
    0 ≤ calculateLaborCost scenarioRequest.laborInputs 25 := by
  rw [scenario_tlc]
  norm_num

/-- The scenario's persisted document at markup m. -/
def scenarioRecipeAt (m : ℚ) : Recipe :=
  { scenarioRecipe with
    markupPercentage := m
    sellingPrice := round2 (131 / 20 * (1 + m / 100)) }

theorem scenario_create_at (m : ℚ) :
    createRecipe scenarioLookup { scenarioRequest with markupPercentage := m } =
      .ok (scenarioRecipeAt m) := by
  rw [createRecipe]
  rw [if_neg (by simp [scenarioRequest])]
  rw [updateCalc_ok _ _ 3 (by exact scenario_tic)]
  simp only [scenarioRequest, scenarioRecipe, scenarioRecipeAt, jsStringOr]
  norm_num [scenario_tlc, round2, jsRound, calculateLaborCost, totalLaborHours, round4]

theorem scenarioSellingPrice_eq (m : ℚ) :
    scenarioSellingPrice m = round2 (131 / 20 * (1 + m / 100)) := by
  rw [scenarioSellingPrice, scenario_create_at m]
  rfl

/-- C6 counterexample: with the scenario's fixed cost inputs, raising the
markup from 10 to 10.01 leaves the rounded sellingPrice unchanged at 7.21,
so the rounded sellingPrice is not strictly increasing in the markup. -/
theorem C6_counterexample :
    (10 : ℚ) < 1001 / 100 ∧ (0 : ℚ) ≤ 10 ∧
    scenarioSellingPrice 10 = 721 / 100 ∧
    scenarioSellingPrice (1001 / 100) = 721 / 100 ∧
    ¬ (scenarioSellingPrice 10 < scenarioSellingPrice (1001 / 100)) := by
  rw [scenarioSellingPrice_eq, scenarioSellingPrice_eq]
  norm_num [round2, jsRound]

/-- C6 (amended): for fixed ingredient costs, labor inputs, labor hourly
rate and batch size, and markups m₁ ≤ m₂ with m₁ ≥ 0, the calculator's
rounded sellingPrice at m₂ is greater than or equal to (not necessarily
strictly greater than) its rounded sellingPrice at m₁. -/
theorem C6_markup_monotone (lookup : Lookup) (r : Recipe) (m₁ m₂ tic : ℚ)
    (r₁ r₂ : Recipe)
    (h₀ : 0 ≤ m₁) (h₁₂ : m₁ ≤ m₂)
    (hin : calculateIngredientCost lookup r.ingredients = .ok tic)
    (htic : 0 ≤ tic)
    (hlab : 0 ≤ calculateLaborCost r.laborInputs r.laborHourlyRate)
    (hm₁ : updateCalculatedCostsAndPrice lookup { r with markupPercentage := m₁ } = .ok r₁)
    (hm₂ : updateCalculatedCostsAndPrice lookup { r with markupPercentage := m₂ } = .ok r₂) :
    r₁.sellingPrice ≤ r₂.sellingPrice := by
  rw [updateCalc_ok lookup _ tic (by exact hin)] at hm₁
  rw [updateCalc_ok lookup _ tic (by exact hin)] at hm₂
  injection hm₁ with h₁'
  injection hm₂ with h₂'
  subst h₁'
  subst h₂'
  show round2 _ ≤ round2 _
  apply round2_mono
  have hcpp : 0 ≤ (if 0 < r.batchSize then
      (tic + calculateLaborCost r.laborInputs r.laborHourlyRate) / r.batchSize else 0) := by
    split
    · next hbs => exact div_nonneg (by linarith) (le_of_lt hbs)
    · exact le_refl 0
  have hmul : 1 + m₁ / 100 ≤ 1 + m₂ / 100 := by linarith
  exact mul_le_mul_of_nonneg_left hmul hcpp

theorem scenarioBase_calc_at (m : ℚ) :
    updateCalculatedCostsAndPrice scenarioLookup { scenarioBase with markupPercentage := m } =
      .ok (scenarioRecipeAt m) := by
  rw [updateCalc_ok _ _ 3 (by exact scenario_tic)]
  simp only [scenarioBase, scenarioRecipe, scenarioRecipeAt]
  norm_num [scenario_tlc, round2, jsRound, calculateLaborCost, totalLaborHours, round4]

/-- Witness for C6 (amended): at markups 10 and 20 the scenario's rounded
selling prices are ordered (7.21 ≤ 7.86). -/
theorem C6_markup_monotone_witness :
    (scenarioRecipeAt 10).sellingPrice ≤ (scenarioRecipeAt 20).sellingPrice :=
  C6_markup_monotone scenarioLookup scenarioBase 10 20 3 _ _
    (by decide) (by decide) scenario_tic (by decide) scenario_labor_nonneg
    (scenarioBase_calc_at 10) (scenarioBase_calc_at 20)

/-- C7: when a calculation request reaches the calculator, the calculator
does not raise: given resolved ingredients it always succeeds; with
batchSize = 0 the stored costPerPie is 0 (division-by-zero guard), and
with batchSize > 0 it is the (2-decimal rounded) quotient
totalBatchCost / batchSize. -/
theorem C7_zero_batch_guard (lookup : Lookup) (r : Recipe) (tic : ℚ)
    (hin : calculateIngredientCost lookup r.ingredients = .ok tic) :
    ∃ r' : Recipe, updateCalculatedCostsAndPrice lookup r = .ok r' ∧
      (r.batchSize = 0 → r'.calculatedCosts.costPerPie = 0) ∧
      (0 < r.batchSize → r'.calculatedCosts.costPerPie =
        round2 ((tic + calculateLaborCost r.laborInputs r.laborHourlyRate) /
          r.batchSize)) := by
  refine ⟨_, updateCalc_ok lookup r tic hin, ?_, ?_⟩
  · intro hbs
    show round2 (if 0 < r.batchSize then
      (tic + calculateLaborCost r.laborInputs r.laborHourlyRate) / r.batchSize
      else 0) = 0
    rw [if_neg (by rw [hbs]; exact lt_irrefl 0), round2_zero]
  · intro hbs
    show round2 (if 0 < r.batchSize then
      (tic + calculateLaborCost r.laborInputs r.laborHourlyRate) / r.batchSize
      else 0) = _
    rw [if_pos hbs]

/-- The scenario document with a zero batch size, as it would reach the
calculator if the boundary validation were bypassed. -/
def zeroBatchBase : Recipe := { scenarioBase with batchSize := 0 }

/-- Witness for C7: the zero-batch document is calculated without error
and its costPerPie is 0. -/
theorem C7_zero_batch_guard_witness :
    ∃ r' : Recipe, updateCalculatedCostsAndPrice scenarioLookup zeroBatchBase = .ok r' ∧
      (zeroBatchBase.batchSize = 0 → r'.calculatedCosts.costPerPie = 0) ∧
      (0 < zeroBatchBase.batchSize → r'.calculatedCosts.costPerPie =
        round2 ((3 + calculateLaborCost zeroBatchBase.laborInputs
          zeroBatchBase.laborHourlyRate) / zeroBatchBase.batchSize)) :=
  C7_zero_batch_guard scenarioLookup zeroBatchBase 3 scenario_tic

/-! ### Ingredient name uniqueness -/

/-- A catalog record whose name differs from `Test Flour` only in case. -/
def flourLowercase : Ingredient :=
  { name := "test flour", unitOfMeasure := "kg", costPerUnit := 3 / 2 }

theorem nameTaken_iff (catalog : List Ingredient) (name : String) :
    nameTaken catalog name = true ↔ ∃ e ∈ catalog, e.name = name := by
  simp [nameTaken, List.any_eq_true]

set_option maxRecDepth 10000 in
/-- C8 counterexample: with `Test Flour` already in the catalog, creating
`test flour` — the same name up to letter case — is accepted, and the
catalog then holds two records whose names differ only in case: the
schema's unique index on `name` compares exact strings, not
case-insensitively. -/
theorem C8_counterexample :
    createIngredient [testFlour] flourLowercase = .ok [testFlour, flourLowercase] ∧
    testFlour.name ≠ flourLowercase.name ∧
    testFlour.name.data.map Char.toLower = flourLowercase.name.data.map Char.toLower := by
  refine ⟨?_, by decide, by decide⟩
  rw [createIngredient, if_neg (by decide)]
  rfl

/-- C8 (amended): ingredient names are unique case-sensitively: creating
an ingredient is rejected with the duplicate-key error exactly when some
record with the very same (trimmed) name already exists, and otherwise the
record is appended — so a name differing from an existing one only in
letter case is accepted. -/
theorem C8_case_sensitive_uniqueness (catalog : List Ingredient) (ing : Ingredient) :
    (createIngredient catalog ing = .error duplicateNameError ↔
      ∃ existing ∈ catalog, existing.name = ing.name) ∧
    (createIngredient catalog ing = .error duplicateNameError ∨
      createIngredient catalog ing = .ok (catalog ++ [ing])) := by
  have hiff := nameTaken_iff catalog ing.name
  by_cases h : nameTaken catalog ing.name = true
  · rw [createIngredient, if_pos h]
    exact ⟨⟨fun _ => hiff.mp h, fun _ => rfl⟩, Or.inl rfl⟩
  · rw [createIngredient, if_neg h]
    exact ⟨⟨fun habs => Except.noConfusion habs,
      fun hex => absurd (hiff.mpr hex) h⟩, Or.inr rfl⟩

/-- Witness for C8 (amended): at the concrete one-record catalog, the
case-variant create is accepted and the duplicate test matches exact
names only. -/
theorem C8_case_sensitive_uniqueness_witness :
    (createIngredient [testFlour] flourLowercase = .error duplicateNameError ↔
      ∃ existing ∈ [testFlour], existing.name = flourLowercase.name) ∧
    (createIngredient [testFlour] flourLowercase = .error duplicateNameError ∨
      createIngredient [testFlour] flourLowercase = .ok ([testFlour] ++ [flourLowercase])) :=
  C8_case_sensitive_uniqueness [testFlour] flourLowercase

/-! ### Create validation boundary -/

/-- A create request whose single ingredient line has quantity 0. -/
def zeroQuantityRequest : CreateRequest :=
  { scenarioRequest with
    pieName := "Zero Quantity Pie"
    ingredients := [{ ingredient := 0, quantity := 0, unitName := "kg" }] }

def quantityRuleMessage : String :=
  "ingredients.*.quantity: Each ingredient quantity must be a positive number"

/-- C9 counterexample: a quantity of 0 is ≥ 0, yet the validation
boundary rejects it — `isFloat (gt 0)` requires strictly positive
quantities — so not every quantity ≥ 0 is accepted. -/
theorem C9_counterexample :
    (0 : ℚ) ≤ 0 ∧
    createValidationErrors zeroQuantityRequest = [quantityRuleMessage] ∧
    recipeCreateEndpoint scenarioLookup zeroQuantityRequest =
      .error (validationError [quantityRuleMessage]) := by
  have herrs : createValidationErrors zeroQuantityRequest = [quantityRuleMessage] := by
    norm_num [createValidationErrors, zeroQuantityRequest, scenarioRequest, isJsInt,
      quantityRuleMessage]
    decide
  refine ⟨le_refl 0, herrs, ?_⟩
  rw [recipeCreateEndpoint, herrs]

/-- C9 (amended): the validation boundary accepts a recipe line quantity
exactly when it is strictly positive: quantity 0 (like any quantity ≤ 0)
is rejected, and negative labor hourly rates, zero batch sizes and empty
ingredient lists are rejected with a validation error before the
calculator runs, so such values never reach it. -/
theorem C9_validation_boundary (lookup : Lookup) (req : CreateRequest) :
    (createValidationErrors req ≠ [] →
      recipeCreateEndpoint lookup req =
        .error (validationError (createValidationErrors req))) ∧
    (req.ingredients = [] → createValidationErrors req ≠ []) ∧
    (req.batchSize = 0 → createValidationErrors req ≠ []) ∧
    (req.laborHourlyRate < 0 → createValidationErrors req ≠ []) ∧
    (∀ line ∈ req.ingredients, line.quantity ≤ 0 → createValidationErrors req ≠ []) ∧
    (createValidationErrors req = [] →
      (∀ line ∈ req.ingredients, 0 < line.quantity) ∧
      recipeCreateEndpoint lookup req = createRecipe lookup req) := by
  refine ⟨?_, ?_, ?_, ?_, ?_, ?_⟩
  · intro hne
    cases hval : createValidationErrors req with
    | nil => exact absurd hval hne
    | cons e es => rw [recipeCreateEndpoint, hval]
  · intro hempty hcontra
    simp only [createValidationErrors, List.append_eq_nil] at hcontra
    have h3 := hcontra.1.1.1.1.1.1.1.2
    rw [if_pos (by rw [hempty]; norm_num)] at h3
    exact List.noConfusion h3
  · intro hbs hcontra
    simp only [createValidationErrors, List.append_eq_nil] at hcontra
    have h2 := hcontra.1.1.1.1.1.1.1.1.2
    rw [if_pos (by rw [hbs]; exact fun hand => lt_irrefl 0 hand.2)] at h2
    exact List.noConfusion h2
  · intro hrate hcontra
    simp only [createValidationErrors, List.append_eq_nil] at hcontra
    have h9 := hcontra.1.2
    rw [if_pos hrate] at h9
    exact List.noConfusion h9
  · intro line hmem hq hcontra
    simp only [createValidationErrors, List.append_eq_nil] at hcontra
    have h4 := hcontra.1.1.1.1.1.1.2
    rw [if_pos ⟨line, hmem, hq⟩] at h4
    exact List.noConfusion h4
  · intro hnil
    constructor
    · intro line hmem
      by_contra hq
      push_neg at hq
      have hcontra := hnil
      simp only [createValidationErrors, List.append_eq_nil] at hcontra
      have h4 := hcontra.1.1.1.1.1.1.2
      rw [if_pos ⟨line, hmem, hq⟩] at h4
      exact List.noConfusion h4
    · rw [recipeCreateEndpoint, hnil]

/-- A create request with an empty ingredient list. -/
def emptyIngredientsRequest : CreateRequest :=
  { scenarioRequest with pieName := "Incomplete Pie", ingredients := [] }

/-- Witness for C9 (amended): the empty-ingredient-list request is
concretely rejected at the validation boundary, before the calculator. -/
theorem C9_validation_boundary_witness :
    createValidationErrors emptyIngredientsRequest ≠ [] ∧
    recipeCreateEndpoint scenarioLookup emptyIngredientsRequest =
      .error (validationError (createValidationErrors emptyIngredientsRequest)) := by
  have hne : createValidationErrors emptyIngredientsRequest ≠ [] :=
    (C9_validation_boundary scenarioLookup emptyIngredientsRequest).2.1 rfl
  exact ⟨hne, (C9_validation_boundary scenarioLookup emptyIngredientsRequest).1 hne⟩

/-! ### Variant default -/

/-- C10: a recipe created without a variant field is persisted with
variant `Standard` (`variant: variant || "Standard"`), and every recipe
persisted through create has a non-empty variant, so the
(pieName, variant) identity pair is always defined. -/
theorem C10_variant_default (lookup : Lookup) (req : CreateRequest) (r : Recipe)
    (hnone : req.variant = none)
    (h : createRecipe lookup req = .ok r) :
    r.variant = "Standard" ∧
    ∀ (req' : CreateRequest) (r' : Recipe),
      createRecipe lookup req' = .ok r' → r'.variant ≠ "" := by
  have hvar : ∀ (q : CreateRequest) (s : Recipe), createRecipe lookup q = .ok s →
      s.variant = jsStringOr q.variant "Standard" := by
    intro q s hs
    rw [createRecipe] at hs
    split at hs
    · exact Except.noConfusion hs
    · cases hc : calculateIngredientCost lookup q.ingredients with
      | error e =>
        rw [updateCalc_error lookup _ e (by exact hc)] at hs
        exact Except.noConfusion hs
      | ok tic =>
        rw [updateCalc_ok lookup _ tic (by exact hc)] at hs
        injection hs with hs'
        subst hs'
        rfl
  constructor
  · rw [hvar req r h, hnone]
    rfl
  · intro req' r' h'
    rw [hvar req' r' h']
    cases req'.variant with
    | none => decide
    | some s =>
      show (if s = "" then "Standard" else s) ≠ ""
      by_cases hs : s = ""
      · rw [if_pos hs]
        decide
      · rw [if_neg hs]
        exact hs

/-- Witness for C10: the scenario request has no variant field and its
persisted recipe carries variant `Standard`. -/
theorem C10_variant_default_witness :
    scenarioRecipe.variant = "Standard" :=
  (C10_variant_default scenarioLookup scenarioRequest scenarioRecipe rfl scenario_create).1

end PPFoodFair
